import Mathlib

/-!
# Verification of the SLM-VisualModel streaming client state machine

Shallow embedding of `src/gui/websocketclient.cpp` / `.h` (class
`WebSocketClient`), the streaming client that owns the websocket to the
inference backend: reconnect with exponential backoff, a busy flag, a
bounded diagnostics log, a capped raw-payload cache, and facet-by-facet
decoding of inbound telemetry messages.

Modelling conventions:
* `QString` payload text handled character-by-character (`message`,
  `m_lastJson`) is modelled as `List Char`; other strings are Lean `String`.
* JSON numbers (`double` in Qt) are modelled as `Int`: no verified claim
  depends on floating-point semantics, only on presence/absence and on
  integral defaults.
* External callbacks' environment data (wall-clock timestamp for log lines,
  the elapsed round-trip milliseconds, the parse result of Qt's JSON parser)
  enter the handlers as explicit arguments.
* Qt signal emissions are collected in an ordered `List Signal` returned
  alongside the updated state.
-/

/-- A decoded JSON value, mirroring `QJsonValue` (Bool / Double / String /
Array / Object / Null). Objects are association lists keyed by `String`. -/
inductive Json where
  | null
  | bool (b : Bool)
  | num (q : Int)
  | str (s : String)
  | arr (xs : List Json)
  | obj (fields : List (String × Json))

/-- The dynamic value representation of `QVariant` as produced by
`WebSocketClient::jsonToVariant` (none / bool / double / string /
QVariantList / QVariantMap). -/
inductive Variant where
  | none
  | bool (b : Bool)
  | num (q : Int)
  | str (s : String)
  | list (xs : List Variant)
  | map (fields : List (String × Variant))

mutual

/-- `WebSocketClient::jsonToVariant`: recursive conversion of a decoded JSON
value into the dynamic variant representation, preserving nesting. -/
def jsonToVariant : Json → Variant
  | .bool b => .bool b
  | .num q => .num q
  | .str s => .str s
  | .null => .none
  | .arr xs => .list (jsonToVariantList xs)
  | .obj fields => .map (jsonToVariantFields fields)

/-- Elementwise `jsonToVariant` over a JSON array (the `for` loop of the
`isArray` branch). -/
def jsonToVariantList : List Json → List Variant
  | [] => []
  | x :: xs => jsonToVariant x :: jsonToVariantList xs

/-- Keywise `jsonToVariant` over an object's fields (the iterator loop of
the `isObject` branch). -/
def jsonToVariantFields : List (String × Json) → List (String × Variant)
  | [] => []
  | (k, v) :: rest => (k, jsonToVariant v) :: jsonToVariantFields rest

end

/-- `QVariant::toList()`: the held list, or empty when not a list. -/
def Variant.toList : Variant → List Variant
  | .list xs => xs
  | _ => []

/-- `QVariant::toMap()`: the held map, or empty when not a map. -/
def Variant.toMap : Variant → List (String × Variant)
  | .map fields => fields
  | _ => []

/-- `QJsonObject::value(k)` on an object's field list: `Option.none` plays
the role of `QJsonValue::Undefined` for a missing key. -/
def jValue (fields : List (String × Json)) (k : String) : Option Json :=
  fields.lookup k

/-- `QJsonObject::contains(k)`. -/
def jContains (fields : List (String × Json)) (k : String) : Bool :=
  (jValue fields k).isSome

/-- `QJsonValue::toString()` (no default): the string, or empty for any
non-string value. -/
def jToString : Json → String
  | .str s => s
  | _ => ""

/-- `QJsonValue::toString(def)` on a possibly-undefined value. -/
def jToStringD (v : Option Json) (d : String) : String :=
  match v with
  | some (.str s) => s
  | _ => d

/-- `QJsonValue::toBool(def)` on a possibly-undefined value. -/
def jToBoolD (v : Option Json) (d : Bool) : Bool :=
  match v with
  | some (.bool b) => b
  | _ => d

/-- `QJsonValue::toInt(def)` on a possibly-undefined value (our model's
numbers are integral, so any number converts). -/
def jToIntD (v : Option Json) (d : Int) : Int :=
  match v with
  | some (.num q) => q
  | _ => d

/-- `QJsonValue::toDouble(def)` on a possibly-undefined value. -/
def jToDoubleD (v : Option Json) (d : Int) : Int :=
  match v with
  | some (.num q) => q
  | _ => d

/-- `QJsonValue::isArray()` on a possibly-undefined value. -/
def jIsArray (v : Option Json) : Bool :=
  match v with
  | some (.arr _) => true
  | _ => false

/-- `QJsonValue::isObject()` on a possibly-undefined value. -/
def jIsObject (v : Option Json) : Bool :=
  match v with
  | some (.obj _) => true
  | _ => false

/-- `QJsonValue::toArray()` on a possibly-undefined value. -/
def jToArray (v : Option Json) : List Json :=
  match v with
  | some (.arr xs) => xs
  | _ => []

/-- `QJsonValue::toObject()` on a possibly-undefined value. -/
def jToObject (v : Option Json) : List (String × Json) :=
  match v with
  | some (.obj fields) => fields
  | _ => []

/-- The Qt signals of `WebSocketClient` (its `signals:` block). -/
inductive Signal where
  | connectedChanged
  | busyChanged
  | generatedChanged
  | tokensChanged
  | topkChanged
  | sampledChanged
  | attentionChanged
  | mlpChanged
  | residualChanged
  | residualLayersLastChanged
  | metaChanged
  | lastErrorChanged
  | logLinesChanged
  | lastJsonChanged
  | perfChanged
deriving DecidableEq

/-- `MAX_TOKENS_DISPLAY` (websocketclient.h). -/
def MAX_TOKENS_DISPLAY : Nat := 256

/-- `MAX_LOG_LINES` (websocketclient.h). -/
def MAX_LOG_LINES : Nat := 500

/-- `MAX_JSON_CHARS` (websocketclient.h). -/
def MAX_JSON_CHARS : Nat := 200000

/-- The member state of `WebSocketClient` (websocketclient.h).
`reconnectTimerDelay` models the one-shot `m_reconnectTimer`: `some d` means
the timer is armed with delay `d` ms. `roundTripActive` is
`m_roundTripActive`; the elapsed-timer reading arrives as a handler input. -/
structure ClientState where
  reconnectAttempt : Nat
  reconnectTimerDelay : Option Nat
  connected : Bool
  busy : Bool
  generated : String
  tokens : List String
  topk : List Variant
  sampledId : Int
  sampledToken : String
  sampledProb : Int
  attentionLayer : Int
  attentionHead : Int
  attentionMatrix : List Variant
  mlpLayer : Int
  mlpActivations : List Variant
  residualLayer : Int
  residualNorms : List Variant
  residualLayersLast : List Variant
  device : String
  done : Bool
  meta : List (String × Variant)
  lastError : String
  logLines : List String
  lastJson : List Char
  roundTripActive : Bool
  lastRoundTripMs : Int
  lastPayloadBytes : Nat

/-- The member initializers of `WebSocketClient` (websocketclient.h). -/
def initialState : ClientState where
  reconnectAttempt := 0
  reconnectTimerDelay := Option.none
  connected := false
  busy := false
  generated := ""
  tokens := []
  topk := []
  sampledId := -1
  sampledToken := ""
  sampledProb := 0
  attentionLayer := 0
  attentionHead := 0
  attentionMatrix := []
  mlpLayer := 0
  mlpActivations := []
  residualLayer := 0
  residualNorms := []
  residualLayersLast := []
  device := "unknown"
  done := false
  meta := []
  lastError := ""
  logLines := []
  lastJson := []
  roundTripActive := false
  lastRoundTripMs := 0
  lastPayloadBytes := 0

/-- The last `n` elements of a list (`QStringList::mid(size - n)` /
`QString::right`-style suffix). -/
def takeLast (n : Nat) (l : List α) : List α :=
  l.drop (l.length - n)

/-- `WebSocketClient::setLastError`: update `m_lastError` and emit
`lastErrorChanged` only when the value actually changes. -/
def setLastError (err : String) (st : ClientState) : ClientState × List Signal :=
  if st.lastError = err then (st, [])
  else ({ st with lastError := err }, [Signal.lastErrorChanged])

/-- The formatted log line `"[%1] %2"` of `WebSocketClient::appendLog`, with
the wall-clock timestamp string supplied by the environment. -/
def logFmt (stamp line : String) : String :=
  "[" ++ stamp ++ "] " ++ line

/-- `WebSocketClient::appendLog`: push the timestamped line, then truncate
from the front to `MAX_LOG_LINES`, and emit `logLinesChanged`. -/
def appendLog (stamp line : String) (st : ClientState) : ClientState × List Signal :=
  let ls := st.logLines ++ [logFmt stamp line]
  let ls2 := if ls.length > MAX_LOG_LINES then takeLast MAX_LOG_LINES ls else ls
  ({ st with logLines := ls2 }, [Signal.logLinesChanged])

/-- `WebSocketClient::clearLog`: no-op (and no signal) when already empty,
otherwise clear and emit `logLinesChanged`. -/
def clearLog (st : ClientState) : ClientState × List Signal :=
  if st.logLines.isEmpty then (st, [])
  else ({ st with logLines := [] }, [Signal.logLinesChanged])

/-- `WebSocketClient::onConnected`. -/
def onConnected (stamp : String) (st : ClientState) : ClientState × List Signal :=
  let st1 := { st with connected := true, reconnectAttempt := 0 }
  let (st2, s2) := setLastError "" st1
  let (st3, s3) := appendLog stamp "CONNECTED" st2
  (st3, [Signal.connectedChanged] ++ s2 ++ s3)

/-- `WebSocketClient::onDisconnected`: drop `connected`, clear `busy` (with
signal) when set, compute the backoff delay from the attempt counter before
incrementing it, arm the one-shot reconnect timer, log the delay. -/
def onDisconnected (stamp : String) (st : ClientState) : ClientState × List Signal :=
  let st1 := { st with connected := false }
  let (st2, sBusy) :=
    if st1.busy then ({ st1 with busy := false }, [Signal.busyChanged]) else (st1, [])
  let baseMs : Nat := 250
  let maxMs : Nat := 5000
  let shift : Nat := min st2.reconnectAttempt 5
  let delay : Nat := min maxMs (baseMs * 2 ^ shift)
  let st3 := { st2 with
    reconnectAttempt := st2.reconnectAttempt + 1
    reconnectTimerDelay := some delay }
  let (st4, sLog) :=
    appendLog stamp ("DISCONNECTED (reconnect in " ++ toString delay ++ "ms)") st3
  (st4, [Signal.connectedChanged] ++ sBusy ++ sLog)

/-- UTF-8 byte length of a character sequence (`QString::toUtf8().size()`). -/
def utf8Len (cs : List Char) : Nat :=
  (cs.map Char.utf8Size).sum

/-- The raw-payload clipping of `onTextMessageReceived`: cap to
`MAX_JSON_CHARS` characters and append the truncation marker. -/
def clipRaw (message : List Char) : List Char :=
  if message.length > MAX_JSON_CHARS then
    message.take MAX_JSON_CHARS ++ "\n...(truncated)...".toList
  else message

/-- Steps 1-3 of `onTextMessageReceived` (before JSON decoding): cache the
clipped raw payload, update payload-size and round-trip perf fields (the
elapsed-timer reading `elapsedMs` is an input from the environment), emit a
single `perfChanged` when either changed, and clear `busy`. -/
def recvPre (elapsedMs : Int) (message : List Char) (st : ClientState) :
    ClientState × List Signal :=
  let clipped := clipRaw message
  let r1 :=
    if st.lastJson ≠ clipped then
      ({ st with lastJson := clipped }, [Signal.lastJsonChanged])
    else (st, [])
  let payloadBytes := utf8Len message
  let r2 :=
    if r1.1.lastPayloadBytes ≠ payloadBytes then
      ({ r1.1 with lastPayloadBytes := payloadBytes }, true)
    else (r1.1, false)
  let r3 :=
    if r2.1.roundTripActive then
      let rtt : Int := if elapsedMs < 0 then 0 else elapsedMs
      let stRt := { r2.1 with roundTripActive := false }
      if stRt.lastRoundTripMs ≠ rtt then
        ({ stRt with lastRoundTripMs := rtt }, true)
      else (stRt, r2.2)
    else r2
  let sPerf : List Signal := if r3.2 then [Signal.perfChanged] else []
  let r4 :=
    if r3.1.busy then
      ({ r3.1 with busy := false }, [Signal.busyChanged])
    else (r3.1, [])
  (r4.1, r1.2 ++ sPerf ++ r4.2)

/-- `jsonToVariant` applied to a possibly-undefined `QJsonValue`
(`Undefined` converts to the empty `QVariant`). -/
def jsonToVariantD (v : Option Json) : Variant :=
  match v with
  | some j => jsonToVariant j
  | _ => Variant.none

/-- The token-list construction of the `tokens` facet block:
`start = (n > MAX_TOKENS_DISPLAY) ? n - MAX_TOKENS_DISPLAY : 0`, then the
loop appends `arr.at(i).toString()` for `i` in `[start, n)`. -/
def tokensTrunc (arr : List Json) : List String :=
  let n := arr.length
  let start := if n > MAX_TOKENS_DISPLAY then n - MAX_TOKENS_DISPLAY else 0
  (arr.drop start).map jToString

/-- The `tokens` facet block: guarded by `contains && isArray`; keeps the
trailing `MAX_TOKENS_DISPLAY` entries, converting each element with
`toString()`. -/
def applyTokens (root : List (String × Json)) (st : ClientState) :
    ClientState × List Signal :=
  if jContains root "tokens" && jIsArray (jValue root "tokens") then
    ({ st with tokens := tokensTrunc (jToArray (jValue root "tokens")) },
     [Signal.tokensChanged])
  else (st, [])

/-- The `generated` facet block: guarded by presence alone. -/
def applyGenerated (root : List (String × Json)) (st : ClientState) :
    ClientState × List Signal :=
  if jContains root "generated" then
    ({ st with generated := jToStringD (jValue root "generated") "" },
     [Signal.generatedChanged])
  else (st, [])

/-- The `sampled` facet block: guarded by `contains && isObject`. -/
def applySampled (root : List (String × Json)) (st : ClientState) :
    ClientState × List Signal :=
  if jContains root "sampled" && jIsObject (jValue root "sampled") then
    let s := jToObject (jValue root "sampled")
    ({ st with
        sampledId := jToIntD (jValue s "id") (-1)
        sampledToken := jToStringD (jValue s "token") ""
        sampledProb := jToDoubleD (jValue s "prob") 0 },
     [Signal.sampledChanged])
  else (st, [])

/-- The `topk` facet block: guarded by `contains && isArray`; converts each
element via `jsonToVariant`. -/
def applyTopk (root : List (String × Json)) (st : ClientState) :
    ClientState × List Signal :=
  if jContains root "topk" && jIsArray (jValue root "topk") then
    ({ st with topk := jsonToVariantList (jToArray (jValue root "topk")) },
     [Signal.topkChanged])
  else (st, [])

/-- The `attention` facet block: guarded by `contains && isObject`; `layer`
and `head` default to their prior values, `matrix` only updates when
present. -/
def applyAttention (root : List (String × Json)) (st : ClientState) :
    ClientState × List Signal :=
  if jContains root "attention" && jIsObject (jValue root "attention") then
    let a := jToObject (jValue root "attention")
    let st1 := { st with
      attentionLayer := jToIntD (jValue a "layer") st.attentionLayer
      attentionHead := jToIntD (jValue a "head") st.attentionHead }
    let st2 :=
      if jContains a "matrix" then
        { st1 with attentionMatrix := (jsonToVariantD (jValue a "matrix")).toList }
      else st1
    (st2, [Signal.attentionChanged])
  else (st, [])

/-- The `mlp` facet block: guarded by `contains && isObject`. -/
def applyMlp (root : List (String × Json)) (st : ClientState) :
    ClientState × List Signal :=
  if jContains root "mlp" && jIsObject (jValue root "mlp") then
    let m := jToObject (jValue root "mlp")
    let st1 := { st with mlpLayer := jToIntD (jValue m "layer") st.mlpLayer }
    let st2 :=
      if jContains m "activations" then
        { st1 with mlpActivations := (jsonToVariantD (jValue m "activations")).toList }
      else st1
    (st2, [Signal.mlpChanged])
  else (st, [])

/-- The `residual` facet block: guarded by `contains && isObject`. -/
def applyResidual (root : List (String × Json)) (st : ClientState) :
    ClientState × List Signal :=
  if jContains root "residual" && jIsObject (jValue root "residual") then
    let r := jToObject (jValue root "residual")
    let st1 := { st with residualLayer := jToIntD (jValue r "layer") st.residualLayer }
    let st2 :=
      if jContains r "norms" then
        { st1 with residualNorms := (jsonToVariantD (jValue r "norms")).toList }
      else st1
    (st2, [Signal.residualChanged])
  else (st, [])

/-- The `residual_layers_last` facet block: guarded by presence alone. -/
def applyResidualLayersLast (root : List (String × Json)) (st : ClientState) :
    ClientState × List Signal :=
  if jContains root "residual_layers_last" then
    ({ st with residualLayersLast :=
        (jsonToVariantD (jValue root "residual_layers_last")).toList },
     [Signal.residualLayersLastChanged])
  else (st, [])

/-- The `meta` facet block: guarded by `contains && isObject`; `device`
defaults to its prior value, `done` defaults to `false`. -/
def applyMeta (root : List (String × Json)) (st : ClientState) :
    ClientState × List Signal :=
  if jContains root "meta" && jIsObject (jValue root "meta") then
    let meta := jToObject (jValue root "meta")
    ({ st with
        meta := (jsonToVariant (Json.obj meta)).toMap
        device := jToStringD (jValue meta "device") st.device
        done := jToBoolD (jValue meta "done") false },
     [Signal.metaChanged])
  else (st, [])

/-- Sequential composition of two state transformers, concatenating their
emitted signals in order. -/
def seqFS (f g : ClientState → ClientState × List Signal) (st : ClientState) :
    ClientState × List Signal :=
  let r := f st
  let r2 := g r.1
  (r2.1, r.2 ++ r2.2)

/-- The facet-update section of `onTextMessageReceived` (the nine guarded
blocks, in source order). -/
def applyFacets (root : List (String × Json)) (st : ClientState) :
    ClientState × List Signal :=
  seqFS (applyTokens root)
    (seqFS (applyGenerated root)
      (seqFS (applySampled root)
        (seqFS (applyTopk root)
          (seqFS (applyAttention root)
            (seqFS (applyMlp root)
              (seqFS (applyResidual root)
                (seqFS (applyResidualLayersLast root)
                  (applyMeta root)))))))) st

/-- `WebSocketClient::onTextMessageReceived`. The environment supplies the
timestamp string, the elapsed-timer reading, and the result of Qt's JSON
parser: `doc` is the parsed document (`Option.none` on a parse error) and
`parseErrString` is `QJsonParseError::errorString()`. A parse failure and a
non-object top level take the same invalid-JSON branch, as in the source. -/
def onTextMessageReceived (stamp : String) (elapsedMs : Int) (message : List Char)
    (doc : Option Json) (parseErrString : String) (st : ClientState) :
    ClientState × List Signal :=
  let pre := recvPre elapsedMs message st
  let payloadBytes := utf8Len message
  match doc with
  | some (Json.obj root) =>
    if jContains root "error" then
      let r1 := setLastError (jToStringD (jValue root "error") "") pre.1
      let r2 := appendLog stamp ("BACKEND ERROR: " ++ r1.1.lastError) r1.1
      (r2.1, pre.2 ++ r1.2 ++ r2.2)
    else
      let r1 := setLastError "" pre.1
      let r2 := applyFacets root r1.1
      let r3 := appendLog stamp
        ("RECV " ++ toString payloadBytes ++ " bytes  rtt="
          ++ toString r2.1.lastRoundTripMs ++ "ms  done="
          ++ (if r2.1.done then "true" else "false")) r2.1
      (r3.1, pre.2 ++ r1.2 ++ r2.2 ++ r3.2)
  | _ =>
    let r1 := setLastError ("JSON parse error: " ++ parseErrString) pre.1
    let r2 := appendLog stamp
      ("RECV INVALID JSON (" ++ toString payloadBytes ++ " bytes): "
        ++ parseErrString) r1.1
    (r2.1, pre.2 ++ r1.2 ++ r2.2)

/-- The "not connected" error message of `WebSocketClient::step` (with the
fixed endpoint from `wsUrl()` interpolated). -/
def notConnectedMsg : String :=
  "Not connected to backend (ws://localhost:8765)."

/-- The request object serialized by `WebSocketClient::step`. -/
def stepRequest (prompt : String) (temperature topK topP vizLayer vizHead : Int) :
    Json :=
  Json.obj
    [("prompt", Json.str prompt),
     ("temperature", Json.num temperature),
     ("top_k", Json.num topK),
     ("top_p", Json.num topP),
     ("step", Json.bool true),
     ("viz_layer", Json.num vizLayer),
     ("viz_head", Json.num vizHead)]

/-- `WebSocketClient::step`. Returns the updated state, the emitted signals,
and the message sent over the websocket (`Option.none` when nothing is
sent). `m_roundTripTimer.restart()` is modelled by setting
`roundTripActive`; the new timer origin lives in the environment. -/
def step (stamp prompt : String) (temperature topK topP vizLayer vizHead : Int)
    (st : ClientState) : ClientState × List Signal × Option Json :=
  if !st.connected then
    let r1 := setLastError notConnectedMsg st
    let r2 := appendLog stamp "STEP blocked (not connected)" r1.1
    (r2.1, r1.2 ++ r2.2, Option.none)
  else
    let willReset := !prompt.isEmpty
    let r1 := appendLog stamp
      ("STEP reset=" ++ (if willReset then "yes" else "no")
        ++ " temp=" ++ toString temperature
        ++ " topk=" ++ toString topK
        ++ " topp=" ++ toString topP
        ++ " layer=" ++ toString vizLayer
        ++ " head=" ++ toString vizHead) st
    let payload := stepRequest prompt temperature topK topP vizLayer vizHead
    let st2 := { r1.1 with roundTripActive := true }
    let r3 :=
      if !st2.busy then ({ st2 with busy := true }, [Signal.busyChanged])
      else (st2, ([] : List Signal))
    (r3.1, r1.2 ++ r3.2, some payload)

/-- Iterated `appendLog` over a sequence of (timestamp, line) pairs. -/
def appendAll (ps : List (String × String)) (st : ClientState) : ClientState :=
  ps.foldl (fun s p => (appendLog p.1 p.2 s).1) st

/-! ## Characterization lemmas for the small operations -/

theorem setLastError_fst (err : String) (st : ClientState) :
    (setLastError err st).1 = { st with lastError := err } := by
  unfold setLastError
  split
  · rename_i h
    rw [← h]
  · rfl

theorem setLastError_snd (err : String) (st : ClientState) :
    (setLastError err st).2
      = if st.lastError = err then [] else [Signal.lastErrorChanged] := by
  unfold setLastError
  split <;> simp_all

theorem length_takeLast (n : Nat) (l : List α) :
    (takeLast n l).length = min n l.length := by
  unfold takeLast
  rw [List.length_drop]
  omega

theorem appendLog_state (stamp line : String) (st : ClientState) :
    (appendLog stamp line st).1
      = { st with logLines :=
            takeLast MAX_LOG_LINES (st.logLines ++ [logFmt stamp line]) } := by
  unfold appendLog
  dsimp only
  split
  · rfl
  · rename_i h
    unfold takeLast
    have h0 : (st.logLines ++ [logFmt stamp line]).length - MAX_LOG_LINES = 0 := by
      omega
    rw [h0, List.drop_zero]

theorem appendLog_snd (stamp line : String) (st : ClientState) :
    (appendLog stamp line st).2 = [Signal.logLinesChanged] := by
  unfold appendLog
  rfl

theorem takeLast_takeLast_append (n : Nat) (A B : List α) :
    takeLast n (takeLast n A ++ B) = takeLast n (A ++ B) := by
  unfold takeLast
  rw [List.length_append, List.length_drop, List.length_append,
    List.drop_append_eq_append_drop, List.drop_append_eq_append_drop,
    List.drop_drop, List.length_drop]
  congr 2 <;> omega

/-! ## Diagnostics log claims -/

/-- C8: `clearLog` is idempotent: after one call the log is empty, and a
second consecutive call returns the state unchanged and emits no signal
(clearing an already-empty log is a silent no-op). -/
theorem clearLog_idempotent (st : ClientState) :
    (clearLog st).1.logLines = []
    ∧ clearLog (clearLog st).1 = ((clearLog st).1, ([] : List Signal)) := by
  have h1 : (clearLog st).1.logLines = [] := by
    unfold clearLog
    split
    · rename_i h
      simpa [List.isEmpty_iff] using h
    · rfl
  refine ⟨h1, ?_⟩
  rw [clearLog, if_pos]
  simp [h1]

theorem appendAll_nil (st : ClientState) : appendAll [] st = st := rfl

theorem appendAll_cons (p : String × String) (ps : List (String × String))
    (st : ClientState) :
    appendAll (p :: ps) st = appendAll ps (appendLog p.1 p.2 st).1 := rfl

/-- C7: iterated `appendLog` keeps at most `MAX_LOG_LINES` lines, evicting
the oldest first and preserving the survivors' order: from any state within
the cap, the resulting log is exactly the trailing `MAX_LOG_LINES` of the
old log followed by the formatted appended lines (so appending 600 lines to
an empty log leaves exactly the last 500, in append order). -/
theorem log_cap_fifo (ps : List (String × String)) (st : ClientState)
    (h : st.logLines.length ≤ MAX_LOG_LINES) :
    (appendAll ps st).logLines
        = takeLast MAX_LOG_LINES (st.logLines ++ ps.map (fun p => logFmt p.1 p.2))
    ∧ (appendAll ps st).logLines.length
        = min MAX_LOG_LINES (st.logLines.length + ps.length) := by
  have main : ∀ (ps : List (String × String)) (st : ClientState),
      st.logLines.length ≤ MAX_LOG_LINES →
      (appendAll ps st).logLines
        = takeLast MAX_LOG_LINES (st.logLines ++ ps.map (fun p => logFmt p.1 p.2)) := by
    intro ps
    induction ps with
    | nil =>
      intro st h
      simp only [appendAll_nil, List.map_nil, List.append_nil]
      unfold takeLast
      have h0 : st.logLines.length - MAX_LOG_LINES = 0 := by omega
      rw [h0, List.drop_zero]
    | cons p rest ih =>
      intro st h
      rw [appendAll_cons]
      have hlen : (appendLog p.1 p.2 st).1.logLines.length ≤ MAX_LOG_LINES := by
        rw [appendLog_state]
        simp only [length_takeLast]
        omega
      rw [ih _ hlen, appendLog_state]
      simp only [List.map_cons]
      rw [takeLast_takeLast_append]
      simp
  refine ⟨main ps st h, ?_⟩
  rw [main ps st h, length_takeLast]
  simp

/-- C7 witness: appending 600 lines to the freshly constructed (empty-log)
client retains exactly the trailing 500, in order. -/
theorem log_cap_fifo_witness :
    initialState.logLines.length ≤ MAX_LOG_LINES
    ∧ ((appendAll (List.replicate 600 ("t", "line")) initialState).logLines
        = takeLast MAX_LOG_LINES (initialState.logLines
            ++ (List.replicate 600 ("t", "line")).map (fun p => logFmt p.1 p.2))
       ∧ (appendAll (List.replicate 600 ("t", "line")) initialState).logLines.length
        = min MAX_LOG_LINES (initialState.logLines.length
            + (List.replicate 600 ("t", "line")).length)) :=
  ⟨by decide, log_cap_fifo (List.replicate 600 ("t", "line")) initialState (by decide)⟩

/-! ## Reconnect backoff (C1) -/

/-- C1: `onDisconnected` arms the one-shot reconnect timer with delay
`min 5000 (250 * 2 ^ min n 5)` ms where `n` is the attempt counter before
the increment, increments the counter, and the delay sequence for
`n = 0..7` is 250, 500, 1000, 2000, 4000, 5000, 5000, 5000. -/
theorem reconnect_backoff (stamp : String) (st : ClientState) :
    (onDisconnected stamp st).1.reconnectTimerDelay
        = some (min 5000 (250 * 2 ^ min st.reconnectAttempt 5))
    ∧ (onDisconnected stamp st).1.reconnectAttempt = st.reconnectAttempt + 1
    ∧ ∀ n : Nat, n ≤ 7 →
        min 5000 (250 * 2 ^ min n 5)
          = [250, 500, 1000, 2000, 4000, 5000, 5000, 5000].getD n 0 := by
  refine ⟨?_, ?_, ?_⟩
  · unfold onDisconnected
    dsimp only
    split <;> simp [appendLog_state]
  · unfold onDisconnected
    dsimp only
    split <;> simp [appendLog_state]
  · intro n hn
    interval_cases n <;> decide

/-- C1 witness: concretely, from the initial state (attempt counter 0) the
armed delay is 250 ms and the counter becomes 1; at `n = 5` the formula
yields the capped 5000 ms entry of the sequence. -/
theorem reconnect_backoff_witness :
    (onDisconnected "t" initialState).1.reconnectTimerDelay = some 250
    ∧ (onDisconnected "t" initialState).1.reconnectAttempt = 1
    ∧ min 5000 (250 * 2 ^ min 5 5)
        = [250, 500, 1000, 2000, 4000, 5000, 5000, 5000].getD 5 0 := by
  obtain ⟨h1, h2, h3⟩ := reconnect_backoff "t" initialState
  exact ⟨h1.trans (by decide), h2.trans (by decide), h3 5 (by decide)⟩

/-! ## step() while not connected (C3) -/

set_option maxRecDepth 8000 in
/-- C3: calling `step` while not connected sends nothing, sets the error
state to the non-empty "not connected" message, appends one log line, and
changes nothing else (the full result is the input state with only
`lastError` and `logLines` touched, plus the corresponding notifications);
the call is total, so it returns normally. -/
theorem step_rejects_when_not_connected
    (stamp prompt : String) (temperature topK topP vizLayer vizHead : Int)
    (st : ClientState) (hConn : st.connected = false) :
    step stamp prompt temperature topK topP vizLayer vizHead st
      = ({ st with
            lastError := notConnectedMsg
            logLines := takeLast MAX_LOG_LINES
              (st.logLines ++ [logFmt stamp "STEP blocked (not connected)"]) },
         (if st.lastError = notConnectedMsg then [] else [Signal.lastErrorChanged])
           ++ [Signal.logLinesChanged],
         Option.none)
    ∧ notConnectedMsg ≠ "" := by
  constructor
  · simp only [step, hConn, Bool.not_false, if_pos, setLastError_fst, setLastError_snd,
      appendLog_state, appendLog_snd]
  · decide

/-- C3 witness: from the freshly constructed client (Disconnected),
`step("hello", ...)` sends nothing and only sets the error and appends the
blocked-log line. -/
theorem step_rejects_when_not_connected_witness :
    initialState.connected = false
    ∧ (step "t" "hello" 1 40 1 0 0 initialState
        = ({ initialState with
              lastError := notConnectedMsg
              logLines := takeLast MAX_LOG_LINES
                (initialState.logLines ++ [logFmt "t" "STEP blocked (not connected)"]) },
           (if initialState.lastError = notConnectedMsg then []
            else [Signal.lastErrorChanged]) ++ [Signal.logLinesChanged],
           Option.none)
       ∧ notConnectedMsg ≠ "") :=
  ⟨rfl, step_rejects_when_not_connected "t" "hello" 1 40 1 0 0 initialState rfl⟩

/-! ## Characterization of the pre-decode section of onTextMessageReceived -/

set_option maxRecDepth 8000 in
theorem recvPre_fst (elapsedMs : Int) (message : List Char) (st : ClientState) :
    (recvPre elapsedMs message st).1
      = { st with
            lastJson := clipRaw message
            lastPayloadBytes := utf8Len message
            roundTripActive := false
            busy := false
            lastRoundTripMs :=
              if st.roundTripActive then (if elapsedMs < 0 then 0 else elapsedMs)
              else st.lastRoundTripMs } := by
  cases st
  unfold recvPre
  dsimp only
  repeat' split
  all_goals simp_all

set_option maxRecDepth 8000 in
set_option maxHeartbeats 1000000 in
theorem recvPre_snd_sub (elapsedMs : Int) (message : List Char) (st : ClientState) :
    ∀ s ∈ (recvPre elapsedMs message st).2,
      s = Signal.lastJsonChanged ∨ s = Signal.perfChanged ∨ s = Signal.busyChanged := by
  cases st
  unfold recvPre
  dsimp only
  repeat' split
  all_goals intro s hs
  all_goals simp_all
  all_goals tauto

/-! ## Per-facet preservation and signal lemmas -/

theorem applyTokens_pres (root : List (String × Json)) (st : ClientState) :
    (applyTokens root st).1.busy = st.busy
    ∧ (applyTokens root st).1.lastJson = st.lastJson
    ∧ (applyTokens root st).1.device = st.device
    ∧ (applyTokens root st).1.done = st.done := by
  unfold applyTokens
  split <;> simp

theorem applyGenerated_pres (root : List (String × Json)) (st : ClientState) :
    (applyGenerated root st).1.busy = st.busy
    ∧ (applyGenerated root st).1.lastJson = st.lastJson
    ∧ (applyGenerated root st).1.device = st.device
    ∧ (applyGenerated root st).1.done = st.done
    ∧ (applyGenerated root st).1.tokens = st.tokens := by
  unfold applyGenerated
  split <;> simp

theorem applySampled_pres (root : List (String × Json)) (st : ClientState) :
    (applySampled root st).1.busy = st.busy
    ∧ (applySampled root st).1.lastJson = st.lastJson
    ∧ (applySampled root st).1.device = st.device
    ∧ (applySampled root st).1.done = st.done
    ∧ (applySampled root st).1.tokens = st.tokens := by
  unfold applySampled
  dsimp only
  split <;> simp

theorem applyTopk_pres (root : List (String × Json)) (st : ClientState) :
    (applyTopk root st).1.busy = st.busy
    ∧ (applyTopk root st).1.lastJson = st.lastJson
    ∧ (applyTopk root st).1.device = st.device
    ∧ (applyTopk root st).1.done = st.done
    ∧ (applyTopk root st).1.tokens = st.tokens := by
  unfold applyTopk
  split <;> simp

theorem applyAttention_pres (root : List (String × Json)) (st : ClientState) :
    (applyAttention root st).1.busy = st.busy
    ∧ (applyAttention root st).1.lastJson = st.lastJson
    ∧ (applyAttention root st).1.device = st.device
    ∧ (applyAttention root st).1.done = st.done
    ∧ (applyAttention root st).1.tokens = st.tokens := by
  unfold applyAttention
  dsimp only
  repeat' split
  all_goals simp

theorem applyMlp_pres (root : List (String × Json)) (st : ClientState) :
    (applyMlp root st).1.busy = st.busy
    ∧ (applyMlp root st).1.lastJson = st.lastJson
    ∧ (applyMlp root st).1.device = st.device
    ∧ (applyMlp root st).1.done = st.done
    ∧ (applyMlp root st).1.tokens = st.tokens := by
  unfold applyMlp
  dsimp only
  repeat' split
  all_goals simp

theorem applyResidual_pres (root : List (String × Json)) (st : ClientState) :
    (applyResidual root st).1.busy = st.busy
    ∧ (applyResidual root st).1.lastJson = st.lastJson
    ∧ (applyResidual root st).1.device = st.device
    ∧ (applyResidual root st).1.done = st.done
    ∧ (applyResidual root st).1.tokens = st.tokens := by
  unfold applyResidual
  dsimp only
  repeat' split
  all_goals simp

theorem applyResidualLayersLast_pres (root : List (String × Json)) (st : ClientState) :
    (applyResidualLayersLast root st).1.busy = st.busy
    ∧ (applyResidualLayersLast root st).1.lastJson = st.lastJson
    ∧ (applyResidualLayersLast root st).1.device = st.device
    ∧ (applyResidualLayersLast root st).1.done = st.done
    ∧ (applyResidualLayersLast root st).1.tokens = st.tokens := by
  unfold applyResidualLayersLast
  split <;> simp

theorem applyMeta_pres (root : List (String × Json)) (st : ClientState) :
    (applyMeta root st).1.busy = st.busy
    ∧ (applyMeta root st).1.lastJson = st.lastJson
    ∧ (applyMeta root st).1.tokens = st.tokens := by
  unfold applyMeta
  dsimp only
  split <;> simp

theorem applyFacets_busy (root : List (String × Json)) (st : ClientState) :
    (applyFacets root st).1.busy = st.busy := by
  unfold applyFacets seqFS
  dsimp only
  simp [applyTokens_pres, applyGenerated_pres, applySampled_pres, applyTopk_pres,
    applyAttention_pres, applyMlp_pres, applyResidual_pres,
    applyResidualLayersLast_pres, applyMeta_pres]

theorem applyFacets_lastJson (root : List (String × Json)) (st : ClientState) :
    (applyFacets root st).1.lastJson = st.lastJson := by
  unfold applyFacets seqFS
  dsimp only
  simp [applyTokens_pres, applyGenerated_pres, applySampled_pres, applyTopk_pres,
    applyAttention_pres, applyMlp_pres, applyResidual_pres,
    applyResidualLayersLast_pres, applyMeta_pres]

theorem applyFacets_tokens (root : List (String × Json)) (st : ClientState) :
    (applyFacets root st).1.tokens = (applyTokens root st).1.tokens := by
  unfold applyFacets seqFS
  dsimp only
  simp [applyGenerated_pres, applySampled_pres, applyTopk_pres,
    applyAttention_pres, applyMlp_pres, applyResidual_pres,
    applyResidualLayersLast_pres, applyMeta_pres]

theorem applyTokens_snd (root : List (String × Json)) (st : ClientState) :
    (applyTokens root st).2
      = if jContains root "tokens" && jIsArray (jValue root "tokens") then
          [Signal.tokensChanged]
        else [] := by
  unfold applyTokens
  split <;> simp_all

theorem applyGenerated_snd (root : List (String × Json)) (st : ClientState) :
    (applyGenerated root st).2
      = if jContains root "generated" then [Signal.generatedChanged] else [] := by
  unfold applyGenerated
  split <;> simp_all

theorem applySampled_snd (root : List (String × Json)) (st : ClientState) :
    (applySampled root st).2
      = if jContains root "sampled" && jIsObject (jValue root "sampled") then
          [Signal.sampledChanged]
        else [] := by
  unfold applySampled
  dsimp only
  split <;> simp_all

theorem applyTopk_snd (root : List (String × Json)) (st : ClientState) :
    (applyTopk root st).2
      = if jContains root "topk" && jIsArray (jValue root "topk") then
          [Signal.topkChanged]
        else [] := by
  unfold applyTopk
  split <;> simp_all

theorem applyAttention_snd (root : List (String × Json)) (st : ClientState) :
    (applyAttention root st).2
      = if jContains root "attention" && jIsObject (jValue root "attention") then
          [Signal.attentionChanged]
        else [] := by
  unfold applyAttention
  dsimp only
  repeat' split
  all_goals simp_all

theorem applyMlp_snd (root : List (String × Json)) (st : ClientState) :
    (applyMlp root st).2
      = if jContains root "mlp" && jIsObject (jValue root "mlp") then
          [Signal.mlpChanged]
        else [] := by
  unfold applyMlp
  dsimp only
  repeat' split
  all_goals simp_all

theorem applyResidual_snd (root : List (String × Json)) (st : ClientState) :
    (applyResidual root st).2
      = if jContains root "residual" && jIsObject (jValue root "residual") then
          [Signal.residualChanged]
        else [] := by
  unfold applyResidual
  dsimp only
  repeat' split
  all_goals simp_all

theorem applyResidualLayersLast_snd (root : List (String × Json)) (st : ClientState) :
    (applyResidualLayersLast root st).2
      = if jContains root "residual_layers_last" then
          [Signal.residualLayersLastChanged]
        else [] := by
  unfold applyResidualLayersLast
  split <;> simp_all

theorem applyMeta_snd (root : List (String × Json)) (st : ClientState) :
    (applyMeta root st).2
      = if jContains root "meta" && jIsObject (jValue root "meta") then
          [Signal.metaChanged]
        else [] := by
  unfold applyMeta
  dsimp only
  split <;> simp_all

theorem applyFacets_snd (root : List (String × Json)) (st : ClientState) :
    (applyFacets root st).2
      = (if jContains root "tokens" && jIsArray (jValue root "tokens") then
            [Signal.tokensChanged] else [])
        ++ ((if jContains root "generated" then [Signal.generatedChanged] else [])
        ++ ((if jContains root "sampled" && jIsObject (jValue root "sampled") then
            [Signal.sampledChanged] else [])
        ++ ((if jContains root "topk" && jIsArray (jValue root "topk") then
            [Signal.topkChanged] else [])
        ++ ((if jContains root "attention" && jIsObject (jValue root "attention") then
            [Signal.attentionChanged] else [])
        ++ ((if jContains root "mlp" && jIsObject (jValue root "mlp") then
            [Signal.mlpChanged] else [])
        ++ ((if jContains root "residual" && jIsObject (jValue root "residual") then
            [Signal.residualChanged] else [])
        ++ ((if jContains root "residual_layers_last" then
            [Signal.residualLayersLastChanged] else [])
        ++ (if jContains root "meta" && jIsObject (jValue root "meta") then
            [Signal.metaChanged] else [])))))))) := by
  unfold applyFacets seqFS
  dsimp only
  rw [applyTokens_snd, applyGenerated_snd, applySampled_snd, applyTopk_snd,
    applyAttention_snd, applyMlp_snd, applyResidual_snd,
    applyResidualLayersLast_snd, applyMeta_snd]

theorem mem_ite_singleton {c : Prop} [Decidable c] (s a : Signal) :
    s ∈ (if c then [a] else ([] : List Signal)) ↔ c ∧ s = a := by
  split <;> simp_all

theorem mem_ite_singleton_not {c : Prop} [Decidable c] (s a : Signal) :
    s ∈ (if c then ([] : List Signal) else [a]) ↔ ¬c ∧ s = a := by
  split <;> simp_all

theorem facet_not_in_recvPre (elapsedMs : Int) (message : List Char)
    (st : ClientState) (s : Signal) (h : s ∈ (recvPre elapsedMs message st).2) :
    s ≠ Signal.tokensChanged ∧ s ≠ Signal.generatedChanged
    ∧ s ≠ Signal.sampledChanged ∧ s ≠ Signal.topkChanged
    ∧ s ≠ Signal.attentionChanged ∧ s ≠ Signal.mlpChanged
    ∧ s ≠ Signal.residualChanged ∧ s ≠ Signal.residualLayersLastChanged
    ∧ s ≠ Signal.metaChanged := by
  rcases recvPre_snd_sub elapsedMs message st s h with h' | h' | h' <;>
    subst h' <;> decide

theorem tokensTrunc_strings (ss : List String) :
    tokensTrunc (ss.map Json.str) = takeLast MAX_TOKENS_DISPLAY ss := by
  unfold tokensTrunc takeLast
  dsimp only
  rw [List.length_map]
  have hmap : ∀ k, ((ss.map Json.str).drop k).map jToString = ss.drop k := by
    intro k
    rw [← List.map_drop, List.map_map]
    have : (jToString ∘ Json.str) = id := by
      funext s
      rfl
    rw [this, List.map_id]
  split
  · rw [hmap]
  · rename_i hle
    have h0 : ss.length - MAX_TOKENS_DISPLAY = 0 := by omega
    rw [h0, hmap]

theorem applyTokens_set (root : List (String × Json)) (st : ClientState)
    (xs : List Json) (hTok : jValue root "tokens" = some (Json.arr xs)) :
    (applyTokens root st).1.tokens = tokensTrunc xs := by
  unfold applyTokens
  have hg : (jContains root "tokens" && jIsArray (jValue root "tokens")) = true := by
    simp [jContains, hTok, jIsArray]
  rw [if_pos hg]
  simp [hTok, jToArray]

theorem applyMeta_set (root : List (String × Json)) (st : ClientState)
    (m : List (String × Json)) (hMeta : jValue root "meta" = some (Json.obj m)) :
    (applyMeta root st).1.done = jToBoolD (jValue m "done") false
    ∧ (applyMeta root st).1.device = jToStringD (jValue m "device") st.device := by
  unfold applyMeta
  have hg : (jContains root "meta" && jIsObject (jValue root "meta")) = true := by
    simp [jContains, hMeta, jIsObject]
  rw [if_pos hg]
  simp [hMeta, jToObject]

theorem applyFacets_meta_fields (root : List (String × Json)) (st : ClientState)
    (m : List (String × Json)) (hMeta : jValue root "meta" = some (Json.obj m)) :
    (applyFacets root st).1.done = jToBoolD (jValue m "done") false
    ∧ (applyFacets root st).1.device = jToStringD (jValue m "device") st.device := by
  unfold applyFacets seqFS
  dsimp only
  constructor
  · rw [(applyMeta_set root _ m hMeta).1]
  · rw [(applyMeta_set root _ m hMeta).2]
    simp [applyTokens_pres, applyGenerated_pres, applySampled_pres, applyTopk_pres,
      applyAttention_pres, applyMlp_pres, applyResidual_pres,
      applyResidualLayersLast_pres]

theorem recv_lastJson (stamp : String) (elapsedMs : Int) (message : List Char)
    (doc : Option Json) (parseErrString : String) (st : ClientState) :
    (onTextMessageReceived stamp elapsedMs message doc parseErrString st).1.lastJson
      = clipRaw message := by
  unfold onTextMessageReceived
  dsimp only
  rcases doc with _ | j
  · simp [setLastError_fst, appendLog_state, recvPre_fst]
  · cases j <;>
      try simp [setLastError_fst, appendLog_state, recvPre_fst]
    split <;>
      simp [setLastError_fst, appendLog_state, recvPre_fst, applyFacets_lastJson]

/-! ## Busy flag protocol (C5) -/

set_option maxRecDepth 8000 in
/-- C5: every inbound message clears `busy` (whatever the decode outcome),
every disconnect clears `busy`, and `step` while connected performs a send,
sets `busy`, and emits `busyChanged` exactly when `busy` was previously
false. -/
theorem busy_protocol :
    (∀ (stamp : String) (elapsedMs : Int) (message : List Char) (doc : Option Json)
        (errStr : String) (st : ClientState),
        (onTextMessageReceived stamp elapsedMs message doc errStr st).1.busy = false)
    ∧ (∀ (stamp : String) (st : ClientState),
        (onDisconnected stamp st).1.busy = false)
    ∧ (∀ (stamp prompt : String) (temperature topK topP vizLayer vizHead : Int)
        (st : ClientState), st.connected = true →
        ((step stamp prompt temperature topK topP vizLayer vizHead st).1.busy = true
         ∧ ((step stamp prompt temperature topK topP vizLayer vizHead st).2.2).isSome
              = true
         ∧ (Signal.busyChanged
              ∈ (step stamp prompt temperature topK topP vizLayer vizHead st).2.1
            ↔ st.busy = false))) := by
  refine ⟨?_, ?_, ?_⟩
  · intro stamp elapsedMs message doc errStr st
    have hpre : (recvPre elapsedMs message st).1.busy = false := by
      rw [recvPre_fst]
    unfold onTextMessageReceived
    dsimp only
    rcases doc with _ | j
    · simp [setLastError_fst, appendLog_state, hpre]
    · cases j <;> try simp [setLastError_fst, appendLog_state, hpre]
      split <;>
        simp [setLastError_fst, appendLog_state, applyFacets_busy, hpre]
  · intro stamp st
    unfold onDisconnected
    dsimp only
    split <;> simp_all [appendLog_state]
  · intro stamp prompt temperature topK topP vizLayer vizHead st hConn
    unfold step
    rw [hConn]
    dsimp only
    by_cases hb : st.busy = false <;> simp_all [appendLog_state, appendLog_snd]

/-- C5 witness: from a connected quiescent state, `step` sends a request,
sets `busy`, and emits `busyChanged` since `busy` was previously false. -/
theorem busy_protocol_witness :
    ({ initialState with connected := true } : ClientState).connected = true
    ∧ ((step "t" "p" 1 40 1 0 0 { initialState with connected := true }).1.busy = true
       ∧ ((step "t" "p" 1 40 1 0 0 { initialState with connected := true }).2.2).isSome
            = true
       ∧ (Signal.busyChanged
            ∈ (step "t" "p" 1 40 1 0 0 { initialState with connected := true }).2.1
          ↔ ({ initialState with connected := true } : ClientState).busy = false)) :=
  ⟨rfl, busy_protocol.2.2 "t" "p" 1 40 1 0 0 { initialState with connected := true } rfl⟩

/-! ## Error messages short-circuit facet updates (C4) -/

set_option maxRecDepth 8000 in
/-- C4: decoding an inbound object message carrying an `error` field with
string value `e` sets the error state to `e` and leaves every telemetry
facet field unchanged, firing no facet notification. -/
theorem error_short_circuit (stamp : String) (elapsedMs : Int) (message : List Char)
    (errStr : String) (st : ClientState) (root : List (String × Json)) (e : String)
    (hErr : jValue root "error" = some (Json.str e)) :
    ((onTextMessageReceived stamp elapsedMs message (some (Json.obj root)) errStr st).1.lastError
        = e
     ∧ (onTextMessageReceived stamp elapsedMs message (some (Json.obj root)) errStr st).1.tokens
        = st.tokens
     ∧ (onTextMessageReceived stamp elapsedMs message (some (Json.obj root)) errStr st).1.generated
        = st.generated
     ∧ (onTextMessageReceived stamp elapsedMs message (some (Json.obj root)) errStr st).1.topk
        = st.topk
     ∧ (onTextMessageReceived stamp elapsedMs message (some (Json.obj root)) errStr st).1.sampledId
        = st.sampledId
     ∧ (onTextMessageReceived stamp elapsedMs message (some (Json.obj root)) errStr st).1.sampledToken
        = st.sampledToken
     ∧ (onTextMessageReceived stamp elapsedMs message (some (Json.obj root)) errStr st).1.sampledProb
        = st.sampledProb
     ∧ (onTextMessageReceived stamp elapsedMs message (some (Json.obj root)) errStr st).1.attentionLayer
        = st.attentionLayer
     ∧ (onTextMessageReceived stamp elapsedMs message (some (Json.obj root)) errStr st).1.attentionHead
        = st.attentionHead
     ∧ (onTextMessageReceived stamp elapsedMs message (some (Json.obj root)) errStr st).1.attentionMatrix
        = st.attentionMatrix
     ∧ (onTextMessageReceived stamp elapsedMs message (some (Json.obj root)) errStr st).1.mlpLayer
        = st.mlpLayer
     ∧ (onTextMessageReceived stamp elapsedMs message (some (Json.obj root)) errStr st).1.mlpActivations
        = st.mlpActivations
     ∧ (onTextMessageReceived stamp elapsedMs message (some (Json.obj root)) errStr st).1.residualLayer
        = st.residualLayer
     ∧ (onTextMessageReceived stamp elapsedMs message (some (Json.obj root)) errStr st).1.residualNorms
        = st.residualNorms
     ∧ (onTextMessageReceived stamp elapsedMs message (some (Json.obj root)) errStr st).1.residualLayersLast
        = st.residualLayersLast
     ∧ (onTextMessageReceived stamp elapsedMs message (some (Json.obj root)) errStr st).1.device
        = st.device
     ∧ (onTextMessageReceived stamp elapsedMs message (some (Json.obj root)) errStr st).1.done
        = st.done
     ∧ (onTextMessageReceived stamp elapsedMs message (some (Json.obj root)) errStr st).1.meta
        = st.meta)
    ∧ (∀ s ∈ (onTextMessageReceived stamp elapsedMs message (some (Json.obj root)) errStr st).2,
        s ≠ Signal.tokensChanged ∧ s ≠ Signal.generatedChanged
        ∧ s ≠ Signal.sampledChanged ∧ s ≠ Signal.topkChanged
        ∧ s ≠ Signal.attentionChanged ∧ s ≠ Signal.mlpChanged
        ∧ s ≠ Signal.residualChanged ∧ s ≠ Signal.residualLayersLastChanged
        ∧ s ≠ Signal.metaChanged) := by
  have hc : jContains root "error" = true := by
    simp [jContains, hErr]
  constructor
  · unfold onTextMessageReceived
    dsimp only
    simp [hc, hErr, jToStringD, setLastError_fst, appendLog_state, recvPre_fst]
  · intro s hs
    unfold onTextMessageReceived at hs
    dsimp only at hs
    rw [hc] at hs
    simp only [if_true, setLastError_snd, appendLog_snd, List.mem_append,
      mem_ite_singleton_not, List.mem_singleton] at hs
    rcases hs with (h | ⟨-, h⟩) | h
    · exact facet_not_in_recvPre elapsedMs message st s h
    · subst h
      decide
    · subst h
      decide

/-- C4 witness: receiving `{"error":"boom"}` stores "boom" in the error
state and leaves the tokens facet untouched. -/
theorem error_short_circuit_witness :
    jValue [("error", Json.str "boom")] "error" = some (Json.str "boom")
    ∧ (onTextMessageReceived "t" 0 []
        (some (Json.obj [("error", Json.str "boom")])) "" initialState).1.lastError = "boom"
    ∧ (onTextMessageReceived "t" 0 []
        (some (Json.obj [("error", Json.str "boom")])) "" initialState).1.tokens
        = initialState.tokens :=
  ⟨rfl,
   (error_short_circuit "t" 0 [] "" initialState [("error", Json.str "boom")] "boom" rfl).1.1,
   (error_short_circuit "t" 0 [] "" initialState [("error", Json.str "boom")] "boom" rfl).1.2.1⟩

/-! ## Token-list truncation (C6) -/

set_option maxRecDepth 8000 in
/-- C6: when a successfully decoded non-error message carries a `tokens`
facet that is an array of strings, the stored token list afterwards is
exactly the trailing `min n MAX_TOKENS_DISPLAY` entries of the incoming
sequence, in original order. -/
theorem tokens_trailing (stamp : String) (elapsedMs : Int) (message : List Char)
    (errStr : String) (st : ClientState) (root : List (String × Json))
    (ss : List String)
    (hTok : jValue root "tokens" = some (Json.arr (ss.map Json.str)))
    (hErr : jContains root "error" = false) :
    (onTextMessageReceived stamp elapsedMs message (some (Json.obj root)) errStr st).1.tokens
        = takeLast MAX_TOKENS_DISPLAY ss
    ∧ (takeLast MAX_TOKENS_DISPLAY ss).length = min ss.length MAX_TOKENS_DISPLAY := by
  constructor
  · unfold onTextMessageReceived
    dsimp only
    simp only [hErr, Bool.false_eq_true, if_false]
    rw [appendLog_state]
    dsimp only
    rw [applyFacets_tokens, applyTokens_set root _ (ss.map Json.str) hTok,
      tokensTrunc_strings]
  · rw [length_takeLast]
    omega

set_option maxRecDepth 8000 in
/-- C6 witness: an incoming `tokens` array of 300 strings yields exactly the
trailing 256 entries. -/
theorem tokens_trailing_witness :
    jValue [("tokens", Json.arr ((List.replicate 300 "x").map Json.str))] "tokens"
        = some (Json.arr ((List.replicate 300 "x").map Json.str))
    ∧ jContains [("tokens", Json.arr ((List.replicate 300 "x").map Json.str))] "error"
        = false
    ∧ (onTextMessageReceived "t" 0 []
          (some (Json.obj [("tokens", Json.arr ((List.replicate 300 "x").map Json.str))]))
          "" initialState).1.tokens
        = takeLast MAX_TOKENS_DISPLAY (List.replicate 300 "x")
    ∧ (takeLast MAX_TOKENS_DISPLAY (List.replicate 300 "x")).length
        = min (List.replicate 300 "x").length MAX_TOKENS_DISPLAY
    ∧ min (List.replicate 300 "x").length MAX_TOKENS_DISPLAY = 256 := by
  have h := tokens_trailing "t" 0 [] "" initialState
    [("tokens", Json.arr ((List.replicate 300 "x").map Json.str))]
    (List.replicate 300 "x") rfl (by decide)
  exact ⟨rfl, by decide, h.1, h.2, by simp [List.length_replicate, MAX_TOKENS_DISPLAY]⟩

/-! ## Meta facet defaults (C10) -/

set_option maxRecDepth 8000 in
/-- C10: when a successfully decoded non-error message carries a `meta`
object, the stored `done` flag becomes the meta object's `done` value and
resets to `false` when the `done` key is absent, while the stored `device`
string keeps its prior value when the `device` key is absent. -/
theorem meta_done_device (stamp : String) (elapsedMs : Int) (message : List Char)
    (errStr : String) (st : ClientState) (root : List (String × Json))
    (m : List (String × Json))
    (hErr : jContains root "error" = false)
    (hMeta : jValue root "meta" = some (Json.obj m)) :
    (jValue m "done" = Option.none →
      (onTextMessageReceived stamp elapsedMs message (some (Json.obj root)) errStr st).1.done
        = false)
    ∧ (∀ b : Bool, jValue m "done" = some (Json.bool b) →
      (onTextMessageReceived stamp elapsedMs message (some (Json.obj root)) errStr st).1.done
        = b)
    ∧ (jValue m "device" = Option.none →
      (onTextMessageReceived stamp elapsedMs message (some (Json.obj root)) errStr st).1.device
        = st.device) := by
  have hfacets := applyFacets_meta_fields root
    ((setLastError "" (recvPre elapsedMs message st).1).1) m hMeta
  refine ⟨?_, ?_, ?_⟩
  · intro h0
    unfold onTextMessageReceived
    dsimp only
    simp only [hErr, Bool.false_eq_true, if_false]
    rw [appendLog_state]
    dsimp only
    rw [hfacets.1]
    simp [h0, jToBoolD]
  · intro b hb
    unfold onTextMessageReceived
    dsimp only
    simp only [hErr, Bool.false_eq_true, if_false]
    rw [appendLog_state]
    dsimp only
    rw [hfacets.1]
    simp [hb, jToBoolD]
  · intro h0
    unfold onTextMessageReceived
    dsimp only
    simp only [hErr, Bool.false_eq_true, if_false]
    rw [appendLog_state]
    dsimp only
    rw [hfacets.2]
    simp [h0, jToStringD, setLastError_fst, recvPre_fst]

/-- C10 witness: receiving `{"meta":{}}` with prior state `done = true`,
`device = "gpu"` resets `done` to `false` but keeps `device = "gpu"`. -/
theorem meta_done_device_witness :
    jContains [("meta", Json.obj [])] "error" = false
    ∧ jValue ([] : List (String × Json)) "done" = Option.none
    ∧ (onTextMessageReceived "t" 0 [] (some (Json.obj [("meta", Json.obj [])])) ""
        { initialState with done := true, device := "gpu" }).1.done = false
    ∧ (onTextMessageReceived "t" 0 [] (some (Json.obj [("meta", Json.obj [])])) ""
        { initialState with done := true, device := "gpu" }).1.device
        = ({ initialState with done := true, device := "gpu" } : ClientState).device := by
  refine ⟨by decide, rfl, ?_, ?_⟩
  · exact (meta_done_device "t" 0 [] ""
      { initialState with done := true, device := "gpu" }
      [("meta", Json.obj [])] [] (by decide) rfl).1 rfl
  · exact (meta_done_device "t" 0 [] ""
      { initialState with done := true, device := "gpu" }
      [("meta", Json.obj [])] [] (by decide) rfl).2.2 rfl

/-! ## Raw payload cache (C9) -/

/-- C9 counterexample: a raw message of 200,001 characters leaves a stored
raw-payload cache strictly longer than 200,000 characters (200,000 kept
characters plus the 18-character truncation marker), so the cache total is
not bounded by `MAX_JSON_CHARS`. -/
theorem raw_cache_exceeds_cap :
    MAX_JSON_CHARS
      < ((onTextMessageReceived "t" 0 (List.replicate (MAX_JSON_CHARS + 1) 'a')
            (some (Json.obj [])) "" initialState).1.lastJson).length := by
  rw [recv_lastJson]
  unfold clipRaw
  rw [if_pos (by simp [List.length_replicate])]
  rw [List.length_append, List.length_take, List.length_replicate]
  have hm : ("\n...(truncated)...".toList).length = 18 := rfl
  rw [hm]
  simp [MAX_JSON_CHARS]

set_option maxRecDepth 8000 in
/-- C9 (amended): after any inbound message the raw-payload cache equals the
clipped message: messages of at most 200,000 characters are stored verbatim,
longer ones are stored as their first 200,000 characters plus the
18-character truncation marker, so the cache never exceeds 200,018
characters (not 200,000 as originally stated). -/
theorem raw_cache_clipped (stamp : String) (elapsedMs : Int) (message : List Char)
    (doc : Option Json) (errStr : String) (st : ClientState) :
    (onTextMessageReceived stamp elapsedMs message doc errStr st).1.lastJson
        = clipRaw message
    ∧ (message.length ≤ MAX_JSON_CHARS → clipRaw message = message)
    ∧ (MAX_JSON_CHARS < message.length →
        clipRaw message
            = message.take MAX_JSON_CHARS ++ "\n...(truncated)...".toList
        ∧ (clipRaw message).length = MAX_JSON_CHARS + 18)
    ∧ ((onTextMessageReceived stamp elapsedMs message doc errStr st).1.lastJson).length
        ≤ MAX_JSON_CHARS + 18 := by
  have hm : ("\n...(truncated)...".toList).length = 18 := rfl
  refine ⟨recv_lastJson stamp elapsedMs message doc errStr st, ?_, ?_, ?_⟩
  · intro hle
    unfold clipRaw
    rw [if_neg]
    omega
  · intro hgt
    unfold clipRaw
    rw [if_pos hgt]
    refine ⟨rfl, ?_⟩
    rw [List.length_append, List.length_take, hm]
    omega
  · rw [recv_lastJson]
    unfold clipRaw
    split
    · rw [List.length_append, List.length_take, hm]
      omega
    · omega

/-- C9 witness: a short message (length 1 ≤ 200,000) is cached verbatim, and
the cache length bound holds for it. -/
theorem raw_cache_clipped_witness :
    (['a'] : List Char).length ≤ MAX_JSON_CHARS
    ∧ clipRaw ['a'] = ['a']
    ∧ ((onTextMessageReceived "t" 0 ['a'] (some (Json.obj [])) "" initialState).1.lastJson).length
        ≤ MAX_JSON_CHARS + 18 :=
  ⟨by decide,
   (raw_cache_clipped "t" 0 ['a'] (some (Json.obj [])) "" initialState).2.1 (by decide),
   (raw_cache_clipped "t" 0 ['a'] (some (Json.obj [])) "" initialState).2.2.2⟩

/-! ## Facet change notifications (C2) -/

/-- C2 counterexample: in the message `{"tokens":null}` the `tokens` key is
present in the decoded top-level object, yet no `tokensChanged` notification
fires (the facet block additionally requires the value to be an array). -/
theorem facet_presence_not_sufficient :
    jContains [("tokens", Json.null)] "tokens" = true
    ∧ Signal.tokensChanged
        ∉ (onTextMessageReceived "t" 0 []
            (some (Json.obj [("tokens", Json.null)])) "" initialState).2 := by
  constructor
  · rfl
  · decide

set_option maxRecDepth 8000 in
set_option maxHeartbeats 1000000 in
/-- C2 (amended): for a successfully decoded non-error object message, each
facet's change notification fires (regardless of the prior state, so even
when the new value equals the old) if and only if the facet's key is present
and the value passes the facet's type guard: array for `tokens` and `topk`,
object for `sampled`, `attention`, `mlp`, `residual` and `meta`; `generated`
and `residual_layers_last` fire on presence alone. -/
theorem facet_notifications_iff (stamp : String) (elapsedMs : Int)
    (message : List Char) (errStr : String) (st : ClientState)
    (root : List (String × Json)) (hErr : jContains root "error" = false) :
    ∀ sigs,
      sigs = (onTextMessageReceived stamp elapsedMs message (some (Json.obj root)) errStr st).2 →
      ((Signal.tokensChanged ∈ sigs
          ↔ (jContains root "tokens" && jIsArray (jValue root "tokens")) = true)
       ∧ (Signal.generatedChanged ∈ sigs ↔ jContains root "generated" = true)
       ∧ (Signal.sampledChanged ∈ sigs
          ↔ (jContains root "sampled" && jIsObject (jValue root "sampled")) = true)
       ∧ (Signal.topkChanged ∈ sigs
          ↔ (jContains root "topk" && jIsArray (jValue root "topk")) = true)
       ∧ (Signal.attentionChanged ∈ sigs
          ↔ (jContains root "attention" && jIsObject (jValue root "attention")) = true)
       ∧ (Signal.mlpChanged ∈ sigs
          ↔ (jContains root "mlp" && jIsObject (jValue root "mlp")) = true)
       ∧ (Signal.residualChanged ∈ sigs
          ↔ (jContains root "residual" && jIsObject (jValue root "residual")) = true)
       ∧ (Signal.residualLayersLastChanged ∈ sigs
          ↔ jContains root "residual_layers_last" = true)
       ∧ (Signal.metaChanged ∈ sigs
          ↔ (jContains root "meta" && jIsObject (jValue root "meta")) = true)) := by
  intro sigs hsigs
  subst hsigs
  have hnp := facet_not_in_recvPre elapsedMs message st
  have h1 : Signal.tokensChanged ∉ (recvPre elapsedMs message st).2 :=
    fun h => (hnp _ h).1 rfl
  have h2 : Signal.generatedChanged ∉ (recvPre elapsedMs message st).2 :=
    fun h => (hnp _ h).2.1 rfl
  have h3 : Signal.sampledChanged ∉ (recvPre elapsedMs message st).2 :=
    fun h => (hnp _ h).2.2.1 rfl
  have h4 : Signal.topkChanged ∉ (recvPre elapsedMs message st).2 :=
    fun h => (hnp _ h).2.2.2.1 rfl
  have h5 : Signal.attentionChanged ∉ (recvPre elapsedMs message st).2 :=
    fun h => (hnp _ h).2.2.2.2.1 rfl
  have h6 : Signal.mlpChanged ∉ (recvPre elapsedMs message st).2 :=
    fun h => (hnp _ h).2.2.2.2.2.1 rfl
  have h7 : Signal.residualChanged ∉ (recvPre elapsedMs message st).2 :=
    fun h => (hnp _ h).2.2.2.2.2.2.1 rfl
  have h8 : Signal.residualLayersLastChanged ∉ (recvPre elapsedMs message st).2 :=
    fun h => (hnp _ h).2.2.2.2.2.2.2.1 rfl
  have h9 : Signal.metaChanged ∉ (recvPre elapsedMs message st).2 :=
    fun h => (hnp _ h).2.2.2.2.2.2.2.2 rfl
  unfold onTextMessageReceived
  dsimp only
  simp [hErr, Bool.false_eq_true, if_false, applyFacets_snd, setLastError_snd,
    appendLog_snd, List.mem_append, mem_ite_singleton, mem_ite_singleton_not,
    h1, h2, h3, h4, h5, h6, h7, h8, h9]

/-- C2 witness: receiving `{"generated":"hi"}` fires `generatedChanged`
(key present), per the amended iff. -/
theorem facet_notifications_iff_witness :
    jContains [("generated", Json.str "hi")] "error" = false
    ∧ (Signal.generatedChanged
        ∈ (onTextMessageReceived "t" 0 []
            (some (Json.obj [("generated", Json.str "hi")])) "" initialState).2
       ↔ jContains [("generated", Json.str "hi")] "generated" = true) :=
  ⟨by decide,
   ((facet_notifications_iff "t" 0 [] "" initialState
      [("generated", Json.str "hi")] (by decide)) _ rfl).2.1⟩
